import Mathlib

/-!
Shallow embedding of `keras/initializers.py` (weight-initializer subsystem).

Conventions of the embedding:
* Tensor shapes are `List ℕ`, tensor payloads are flat (row-major) `List ℚ`.
* Python floats are idealised as exact rationals `ℚ`.
* External numeric primitives that the source delegates to (numpy's `sqrt`,
  economy SVD, real inverse FFTs, and the distribution transform applied to
  raw pseudo-random draws) are bundled in a `Backend` structure; definitions
  take the backend as an argument, theorems quantify over it or instantiate a
  concrete one.
* numpy's process-wide random generator is modelled as an explicit state
  `NpState`: an underlying draw stream plus a cursor. `np.random.seed s`
  replaces the stream by the backend's seeded stream and resets the cursor;
  drawing `k` samples consumes `k` stream positions.
* Python exceptions become `Except InitError`: `ValueError` carries a message,
  tuple over-indexing becomes `indexError`.
-/

/-- Error taxonomy of the source: `ValueError` raised by validation code and
`IndexError` raised by indexing a tuple out of range. -/
inductive InitError where
  | valueError (msg : String)
  | indexError
deriving DecidableEq

/-- A tensor: a shape together with its row-major flattened entries. -/
structure Tensor where
  shape : List ℕ
  data : List ℚ
deriving DecidableEq

/-- A shaped matrix, used for results of the external SVD primitive. -/
structure Mat where
  rows : ℕ
  cols : ℕ
  entries : List ℚ
deriving DecidableEq

/-- State of the process-wide numpy random generator: the active raw draw
stream and the cursor position of the next unconsumed draw. -/
structure NpState where
  stream : ℕ → ℚ
  pos : ℕ

/-- External numeric primitives consumed by the source (spec section 6 calls
these the numeric backend boundary: sampling, SVD and FFT primitives are
"assumed correct and provided externally").

* `seedStream s` is the raw stream installed by `np.random.seed s`;
* `normal mean stddev raw` turns one raw stream draw into one sample of
  `np.random.normal(mean, stddev, ...)`;
* `svd m n a` is `np.linalg.svd` on an `m × n` matrix in economy sizing,
  returning `(u, singular_values, vh)` (for the square matrices fed to the
  full-matrices call in `_create_basis`, economy and full sizing coincide);
* `sqrt` is `np.sqrt`;
* `irfft x s` is `np.fft.irfft(x, s)` (1-D, `s` optional);
* `irfft2 r c x s` is `np.fft.irfft2` on an `r × c` array, returning the
  output shape together with its flattened entries. -/
structure Backend where
  seedStream : ℕ → ℕ → ℚ
  normal : ℚ → ℚ → ℚ → ℚ
  svd : ℕ → ℕ → List ℚ → Mat × List ℚ × Mat
  sqrt : ℚ → ℚ
  irfft : List ℚ → Option ℕ → List ℚ
  irfft2 : ℕ → ℕ → List ℚ → Option (ℕ × ℕ) → (ℕ × ℕ) × List ℚ

/-- `np.random.seed s`: install the seeded stream, cursor at the start. -/
def npSeed (B : Backend) (s : ℕ) : NpState :=
  ⟨B.seedStream s, 0⟩

/-- `np.random.normal(mean, stddev, ...)` producing `count` samples: consume
`count` raw draws from the global stream and transform each. -/
def drawNormal (B : Backend) (mean stddev : ℚ) (count : ℕ) (σ : NpState) :
    List ℚ × NpState :=
  ((List.range count).map fun i => B.normal mean stddev (σ.stream (σ.pos + i)),
    ⟨σ.stream, σ.pos + count⟩)

/-- `np.prod` over an integer shape tuple (empty product is 1). -/
def pyProd (l : List ℕ) : ℕ :=
  l.foldl (· * ·) 1

/-- `str.lower` for a single character, on the ASCII range used here. -/
def pyCharLower (c : Char) : Char :=
  if 'A' ≤ c ∧ c ≤ 'Z' then Char.ofNat (c.toNat + 32) else c

/-- `str.lower` (the strings involved are plain ASCII). -/
def pyLower (s : String) : String :=
  ⟨s.data.map pyCharLower⟩

/-- `_compute_fans(shape, data_format)` from the source: length-2 shapes are
dense kernels, lengths 3/4/5 are convolution kernels (the `channels_last`
branch takes `np.prod(shape[:2])` as the receptive field size, exactly as the
source line does), any other length uses the square root of the total size. -/
def computeFans (B : Backend) (shape : List ℕ) (data_format : String) :
    Except InitError (ℚ × ℚ) :=
  if shape.length = 2 then
    .ok ((shape.getD 0 0 : ℚ), (shape.getD 1 0 : ℚ))
  else if shape.length = 3 ∨ shape.length = 4 ∨ shape.length = 5 then
    if data_format = "channels_first" then
      let receptive_field_size : ℚ := (pyProd (shape.drop 2) : ℕ)
      .ok ((shape.getD 1 0 : ℚ) * receptive_field_size,
           (shape.getD 0 0 : ℚ) * receptive_field_size)
    else if data_format = "channels_last" then
      let receptive_field_size : ℚ := (pyProd (shape.take 2) : ℕ)
      .ok ((shape.getD (shape.length - 2) 0 : ℚ) * receptive_field_size,
           (shape.getD (shape.length - 1) 0 : ℚ) * receptive_field_size)
    else
      .error (.valueError ("Invalid data_format: " ++ data_format))
  else
    .ok (B.sqrt ((pyProd shape : ℕ) : ℚ), B.sqrt ((pyProd shape : ℕ) : ℚ))

/-- The fan formula the specification states for `channels_last` layouts of
rank 3, 4 or 5: the receptive field is the product of the spatial dimensions
`shape[:-2]`, `fan_in = shape[-2] * r`, `fan_out = shape[-1] * r`. Stated
separately so it can be compared against the source's `computeFans`. -/
def specFansChannelsLast (shape : List ℕ) : ℚ × ℚ :=
  let r : ℚ := (pyProd (shape.take (shape.length - 2)) : ℕ)
  ((shape.getD (shape.length - 2) 0 : ℚ) * r,
   (shape.getD (shape.length - 1) 0 : ℚ) * r)

/-- A concrete backend instantiation used for counterexamples and witnesses:
the seeded stream for seed `s` emits `s, s+1, s+2, …`; distribution draws pass
the raw value through; SVD returns the input matrix in all three slots; the
inverse FFTs are shape-preserving identities and `sqrt` is the identity. -/
def CB : Backend where
  seedStream := fun s n => (s : ℚ) + (n : ℚ)
  normal := fun _ _ raw => raw
  svd := fun m n a => (⟨m, n, a⟩, a, ⟨m, n, a⟩)
  sqrt := fun x => x
  irfft := fun x _ => x
  irfft2 := fun r c x _ => ((r, c), x)

/-- The identity stream starting at position 0, emitting `0, 1, 2, …`. -/
def sigma0 : NpState :=
  ⟨fun n => (n : ℚ), 0⟩

/-- `Orthogonal.__call__(shape)` from the source.

* `num_rows` is the product of `shape[:-1]`, `num_cols` is `shape[-1]`
  (`shape[-1]` on an empty tuple raises `IndexError`);
* if a seed is set, `np.random.seed(self.seed)` replaces the global stream;
* an `num_rows × num_cols` standard-normal matrix is drawn;
* economy SVD gives `(u, _, v)`; `u` is kept when its shape equals
  `flat_shape`, otherwise `v`;
* `q.reshape(shape)` keeps the flat data (the sizes agree by construction),
  and the corner `q[:shape[0], :shape[1]]` needs `shape[1]` to exist —
  a length-1 shape raises `IndexError` there; when both bounds exist they
  equal the leading dimensions, so the slice keeps the whole array;
* the result is `gain` times the data. -/
def orthogonalCall (B : Backend) (gain : ℚ) (seed : Option ℕ) (shape : List ℕ)
    (σ : NpState) : Except InitError (Tensor × NpState) :=
  let num_rows := pyProd shape.dropLast
  match shape.getLast? with
  | none => .error .indexError
  | some num_cols =>
    let σ1 := match seed with
      | some s => npSeed B s
      | none => σ
    let draw := drawNormal B 0 1 (num_rows * num_cols) σ1
    let a := draw.1
    let σ2 := draw.2
    let factored := B.svd num_rows num_cols a
    let u := factored.1
    let v := factored.2.2
    let q := if u.rows = num_rows ∧ u.cols = num_cols then u.entries else v.entries
    match shape with
    | [] => .error .indexError
    | [_] => .error .indexError
    | _ :: _ :: _ => .ok (⟨shape, q.map fun x => gain * x⟩, σ2)

/-- Stored state of a constructed `VarianceScaling` instance (`scale`, the
lower-cased `mode` and `distribution`, and the optional seed). -/
structure VSState where
  scale : ℚ
  mode : String
  distribution : String
  seed : Option ℕ
deriving DecidableEq

/-- `VarianceScaling.__init__`: rejects non-positive `scale`, lower-cases
`mode` and `distribution` and rejects them unless they are among the known
names, then stores the validated values. -/
def mkVS (scale : ℚ) (mode distribution : String) (seed : Option ℕ) :
    Except InitError VSState :=
  if scale ≤ 0 then
    .error (.valueError "`scale` must be a positive float.")
  else
    let mode := pyLower mode
    if ¬ (mode = "fan_in" ∨ mode = "fan_out" ∨ mode = "fan_avg") then
      .error (.valueError "Invalid `mode` argument")
    else
      let distribution := pyLower distribution
      if ¬ (distribution = "normal" ∨ distribution = "uniform") then
        .error (.valueError "Invalid `distribution` argument")
      else
        .ok ⟨scale, mode, distribution, seed⟩

/-- A delegated call into the keras backend sampling boundary
(`K.truncated_normal` / `K.random_uniform`), recorded with its arguments. -/
inductive KCall where
  | truncatedNormal (shape : List ℕ) (mean stddev : ℚ) (seed : Option ℕ)
  | randomUniform (shape : List ℕ) (minval maxval : ℚ) (seed : Option ℕ)
deriving DecidableEq

/-- `VarianceScaling.__call__(shape)`: fans come from
`_compute_fans(shape)` (whose `data_format` argument defaults to
`channels_last`), the scale is divided by `max(1., fan)` according to the
mode (`fan_avg` being the residual branch), and the call delegates to
`K.truncated_normal(shape, 0., sqrt(scale))` for the normal distribution or
`K.random_uniform(shape, -limit, limit)` with `limit = sqrt(3. * scale)`
for the uniform one. -/
def vsCall (B : Backend) (v : VSState) (shape : List ℕ) :
    Except InitError KCall :=
  match computeFans B shape "channels_last" with
  | .error e => .error e
  | .ok fans =>
    let scale := v.scale
    let scale := if v.mode = "fan_in" then scale / max 1 fans.1
      else if v.mode = "fan_out" then scale / max 1 fans.2
      else scale / max 1 ((fans.1 + fans.2) / 2)
    if v.distribution = "normal" then
      .ok (.truncatedNormal shape 0 (B.sqrt scale) v.seed)
    else
      .ok (.randomUniform shape (-(B.sqrt (3 * scale))) (B.sqrt (3 * scale)) v.seed)

/-- `lecun_uniform(seed)` from the source. -/
def lecun_uniform (seed : Option ℕ) : Except InitError VSState :=
  mkVS 1 "fan_in" "uniform" seed

/-- `glorot_normal(seed)` from the source. -/
def glorot_normal (seed : Option ℕ) : Except InitError VSState :=
  mkVS 1 "fan_avg" "normal" seed

/-- `glorot_uniform(seed)` from the source. -/
def glorot_uniform (seed : Option ℕ) : Except InitError VSState :=
  mkVS 1 "fan_avg" "uniform" seed

/-- `he_normal(seed)` from the source. -/
def he_normal (seed : Option ℕ) : Except InitError VSState :=
  mkVS 2 "fan_in" "normal" seed

/-- `he_uniform(seed)` from the source. -/
def he_uniform (seed : Option ℕ) : Except InitError VSState :=
  mkVS 2 "fan_in" "uniform" seed

/-- `Identity.__call__(shape)`: only length-2 square shapes are accepted,
anything else raises `ValueError`; the result is `gain * np.identity(n)`. -/
def identityCall (gain : ℚ) (shape : List ℕ) : Except InitError Tensor :=
  if shape.length ≠ 2 ∨ shape.getD 0 0 ≠ shape.getD 1 0 then
    .error (.valueError "Identity matrix initializer can only be used for 2D square matrices.")
  else
    let n := shape.getD 0 0
    .ok ⟨[n, n], (List.range (n * n)).map fun k => if k / n = k % n then gain else 0⟩

/-- Modelled from the spec: `K.image_data_format()` lives in the backend
module, which is not part of this snapshot; the spec (and the
`_compute_fans` docstring) state that all kernels are standardized on the
`channels_last` ordering. -/
def image_data_format : String := "channels_last"

/-- `ConvolutionAware._symmetrize(a)` on a flat `n × n` matrix:
`a + a.T - np.diag(a.diagonal())`. -/
def symmetrize (n : ℕ) (a : List ℚ) : List ℚ :=
  (List.range (n * n)).map fun k =>
    let i := k / n
    let j := k % n
    a.getD (i * n + j) 0 + a.getD (j * n + i) 0 -
      (if i = j then a.getD (i * n + j) 0 else 0)

/-- `u.T.tolist()`: the rows of the transpose, i.e. the columns of `u`. -/
def matTransposeRows (u : Mat) : List (List ℚ) :=
  (List.range u.cols).map fun j =>
    (List.range u.rows).map fun i => u.entries.getD (i * u.cols + j) 0

/-- `ConvolutionAware._create_basis(filters, size)`: for `size = 1` a plain
`(filters, 1)` noise draw with stddev `eps_std`; otherwise
`filters // size + 1` batches, each drawing a `size × size` standard-normal
matrix, symmetrizing it, SVD-ing it (the square full SVD coincides with the
economy one) and appending the rows of `uᵀ`; finally the first `filters`
rows are kept. -/
def createBasis (B : Backend) (eps_std : ℚ) (filters size : ℕ) (σ : NpState) :
    List (List ℚ) × NpState :=
  if size = 1 then
    let draw := drawNormal B 0 eps_std (filters * 1) σ
    (draw.1.map fun x => [x], draw.2)
  else
    let nbb := filters / size + 1
    let batches := (List.range nbb).foldl
      (fun (acc : List (List ℚ) × NpState) _ =>
        let draw := drawNormal B 0 1 (size * size) acc.2
        let a := symmetrize size draw.1
        let factored := B.svd size size a
        (acc.1 ++ matTransposeRows factored.1, draw.2))
      ([], σ)
    (batches.1.take filters, batches.2)

/-- `np.mean` of a flat array. -/
def pmean (l : List ℚ) : ℚ :=
  l.sum / (l.length : ℚ)

/-- `np.var` of a flat array (population variance, numpy's default). -/
def pvar (l : List ℚ) : ℚ :=
  pmean (l.map fun x => (x - pmean l) ^ 2)

/-- `ConvolutionAware._scale_filters(filters, variance)`: multiply everything
by `sqrt(variance / np.var(filters))`. -/
def scaleFilters (B : Backend) (filtersData : List ℚ) (variance : ℚ) : List ℚ :=
  let c_var := pvar filtersData
  let p := B.sqrt (variance / c_var)
  filtersData.map fun x => x * p

set_option linter.unusedVariables false in
/-- `ConvolutionAware.__call__(shape)` from the source.

* fans come from `_compute_fans(shape, K.image_data_format())` and
  `variance = 2 / fan_in`;
* rank 3 runs the 1-D Fourier path: `kernel_shape = (row,)`, the Fourier
  sizing is discovered by applying `np.fft.irfft` to a zero-filled kernel,
  then for each of `filters_size` filters a `stack_size`-row basis is built
  and each basis row is inverse-transformed with `s = kernel_shape` and
  perturbed by `eps_std` noise; the stack is rescaled to the target variance
  and transposed by axes `(2, 1, 0)` from `(filters, stack, row)`;
* rank 4 is the same with `np.fft.irfft2`, kernel `(row, column)`, noise of
  size `row * column` and transpose axes `(2, 3, 1, 0)` from
  `(filters, stack, row, column)` (the diagnostic `print` has no effect on
  the result and is omitted);
* every other rank delegates to `self.orthogonal`, the `Orthogonal()`
  instance created by `__init__` with default `gain = 1` and no seed.
  `self.seed` is stored by `__init__` but never consulted here. -/
def convAwareCall (B : Backend) (eps_std : ℚ) (seed : Option ℕ)
    (shape : List ℕ) (σ : NpState) : Except InitError (Tensor × NpState) :=
  let rank := shape.length
  match computeFans B shape image_data_format with
  | .error e => .error e
  | .ok fans =>
    let variance := 2 / fans.1
    if rank = 3 then
      let row := shape.getD 0 0
      let stack_size := shape.getD 1 0
      let filters_size := shape.getD 2 0
      let kfLen := (B.irfft (List.replicate row 0) none).length
      let built := (List.range filters_size).foldl
        (fun (acc : List ℚ × NpState) _ =>
          let basis := createBasis B eps_std stack_size kfLen acc.2
          let filters := basis.1.foldl
            (fun (acc2 : List ℚ × NpState) x =>
              let y := B.irfft x (some row)
              let noise := drawNormal B 0 eps_std row acc2.2
              (acc2.1 ++ List.zipWith (· + ·) y noise.1, noise.2))
            ([], basis.2)
          (acc.1 ++ filters.1, filters.2))
        ([], σ)
      let scaled := scaleFilters B built.1 variance
      let outData := (List.range row).flatMap fun r =>
        (List.range stack_size).flatMap fun s =>
          (List.range filters_size).map fun f =>
            scaled.getD ((f * stack_size + s) * row + r) 0
      .ok (⟨shape, outData⟩, built.2)
    else if rank = 4 then
      let row := shape.getD 0 0
      let column := shape.getD 1 0
      let stack_size := shape.getD 2 0
      let filters_size := shape.getD 3 0
      let disco := B.irfft2 row column (List.replicate (row * column) 0) none
      let kfRows := disco.1.1
      let kfCols := disco.1.2
      let built := (List.range filters_size).foldl
        (fun (acc : List ℚ × NpState) _ =>
          let basis := createBasis B eps_std stack_size (kfRows * kfCols) acc.2
          let filters := basis.1.foldl
            (fun (acc2 : List ℚ × NpState) x =>
              let y := (B.irfft2 kfRows kfCols x (some (row, column))).2
              let noise := drawNormal B 0 eps_std (row * column) acc2.2
              (acc2.1 ++ List.zipWith (· + ·) y noise.1, noise.2))
            ([], basis.2)
          (acc.1 ++ filters.1, filters.2))
        ([], σ)
      let scaled := scaleFilters B built.1 variance
      let outData := (List.range row).flatMap fun r =>
        (List.range column).flatMap fun c =>
          (List.range stack_size).flatMap fun s =>
            (List.range filters_size).map fun f =>
              scaled.getD (((f * stack_size + s) * row + r) * column + c) 0
      .ok (⟨shape, outData⟩, built.2)
    else
      orthogonalCall B 1 none shape σ

/-- Configuration record of an initializer variant: the flat mapping that
`get_config` returns, one case per variant, carrying exactly the keyword
arguments its constructor takes (`from_config` is `cls(**config)`). `Zeros`
and `Ones` inherit the empty record. -/
inductive InitConfig where
  | zeros
  | ones
  | constant (value : ℚ)
  | randomNormal (mean stddev : ℚ) (seed : Option ℕ)
  | randomUniform (minval maxval : ℚ) (seed : Option ℕ)
  | truncatedNormal (mean stddev : ℚ) (seed : Option ℕ)
  | varianceScaling (scale : ℚ) (mode distribution : String) (seed : Option ℕ)
  | orthogonal (gain : ℚ) (seed : Option ℕ)
  | convolutionAware (eps_std : ℚ) (seed : Option ℕ)
  | identity (gain : ℚ)
deriving DecidableEq

/-- A constructed initializer instance: the attributes each `__init__`
stores. Only `VarianceScaling.__init__` transforms or validates its
arguments (the others store them verbatim); `ConvolutionAware.__init__`
additionally stores a default `Orthogonal()` instance, which carries no
data beyond its fixed defaults. -/
inductive InitInstance where
  | zeros
  | ones
  | constant (value : ℚ)
  | randomNormal (mean stddev : ℚ) (seed : Option ℕ)
  | randomUniform (minval maxval : ℚ) (seed : Option ℕ)
  | truncatedNormal (mean stddev : ℚ) (seed : Option ℕ)
  | varianceScaling (v : VSState)
  | orthogonal (gain : ℚ) (seed : Option ℕ)
  | convolutionAware (eps_std : ℚ) (seed : Option ℕ)
  | identity (gain : ℚ)
deriving DecidableEq

/-- Running a variant's constructor on a configuration record
(`cls(**config)`, i.e. `Initializer.from_config`). -/
def mkInit (c : InitConfig) : Except InitError InitInstance :=
  match c with
  | .zeros => .ok .zeros
  | .ones => .ok .ones
  | .constant value => .ok (.constant value)
  | .randomNormal mean stddev seed => .ok (.randomNormal mean stddev seed)
  | .randomUniform minval maxval seed => .ok (.randomUniform minval maxval seed)
  | .truncatedNormal mean stddev seed => .ok (.truncatedNormal mean stddev seed)
  | .varianceScaling scale mode distribution seed =>
    (mkVS scale mode distribution seed).map .varianceScaling
  | .orthogonal gain seed => .ok (.orthogonal gain seed)
  | .convolutionAware eps_std seed => .ok (.convolutionAware eps_std seed)
  | .identity gain => .ok (.identity gain)

/-- `get_config()` of each variant, read off the stored attributes. -/
def getConfig (i : InitInstance) : InitConfig :=
  match i with
  | .zeros => .zeros
  | .ones => .ones
  | .constant value => .constant value
  | .randomNormal mean stddev seed => .randomNormal mean stddev seed
  | .randomUniform minval maxval seed => .randomUniform minval maxval seed
  | .truncatedNormal mean stddev seed => .truncatedNormal mean stddev seed
  | .varianceScaling v => .varianceScaling v.scale v.mode v.distribution v.seed
  | .orthogonal gain seed => .orthogonal gain seed
  | .convolutionAware eps_std seed => .convolutionAware eps_std seed
  | .identity gain => .identity gain

theorem pyLower_mode_idem {x : String}
    (h : x = "fan_in" ∨ x = "fan_out" ∨ x = "fan_avg") : pyLower x = x := by
  rcases h with h | h | h <;> subst h <;> decide

theorem pyLower_dist_idem {x : String}
    (h : x = "normal" ∨ x = "uniform") : pyLower x = x := by
  rcases h with h | h <;> subst h <;> decide

theorem computeFans_channels_last_ok (B : Backend) (shape : List ℕ) :
    ∃ p, computeFans B shape "channels_last" = .ok p := by
  unfold computeFans
  split_ifs with h1 h2 h3 h4
  · exact ⟨_, rfl⟩
  · exact absurd h3 (by decide)
  · exact ⟨_, rfl⟩
  · exact absurd h4 (by decide)
  · exact ⟨_, rfl⟩

/-- C1: false on the code. The claim states that for `channels_last` shapes
of rank 3, 4 or 5 the receptive field is the product of the spatial
dimensions `shape[:-2]`; the source instead multiplies the first two
dimensions `shape[:2]`. The two coincide at rank 4 (so the claim's rank-4
example `(3,3,16,32) ↦ (3*3*16, 3*3*32)` does hold), but at rank 3 the
shape `(2,3,4)` gives `fan_in = 3 * (2*3) = 18` and `fan_out = 4 * (2*3) =
24` in the code, against the claimed `(3*2, 4*2) = (6, 8)`. -/
theorem c1_compute_fans_divergence :
    computeFans CB [2, 3, 4] "channels_last" = .ok (18, 24) ∧
    specFansChannelsLast [2, 3, 4] = (6, 8) ∧
    computeFans CB [3, 3, 16, 32] "channels_last" = .ok (144, 288) ∧
    ((18 : ℚ), (24 : ℚ)) ≠ ((6 : ℚ), (8 : ℚ)) := by
  refine ⟨?_, ?_, ?_, by norm_num⟩
  · norm_num [computeFans, pyProd]
    decide
  · norm_num [specFansChannelsLast, pyProd]
  · norm_num [computeFans, pyProd]
    decide

/-- C4: the `VarianceScaling` constructor succeeds exactly when the scale is
positive, the lower-cased mode is one of `fan_in`, `fan_out`, `fan_avg` and
the lower-cased distribution is `normal` or `uniform`; every failure is the
`ValueError` (the spec's `InvalidArgument`) raised by the validation code. -/
theorem c4_variance_scaling_validation (scale : ℚ) (mode distribution : String)
    (seed : Option ℕ) :
    (∃ v, mkVS scale mode distribution seed = .ok v) ↔
      (0 < scale ∧
        (pyLower mode = "fan_in" ∨ pyLower mode = "fan_out" ∨
          pyLower mode = "fan_avg") ∧
        (pyLower distribution = "normal" ∨ pyLower distribution = "uniform")) := by
  unfold mkVS
  by_cases h1 : scale ≤ 0
  · simp [h1, not_lt.2 h1]
  · rw [if_neg h1]
    by_cases h2 : pyLower mode = "fan_in" ∨ pyLower mode = "fan_out" ∨
        pyLower mode = "fan_avg"
    · rw [if_neg (not_not_intro h2)]
      by_cases h3 : pyLower distribution = "normal" ∨ pyLower distribution = "uniform"
      · rw [if_neg (not_not_intro h3)]
        simp [not_le.1 h1, h2, h3]
      · rw [if_pos h3]
        simp [h3]
    · rw [if_pos h2]
      simp [h2]

/-- C3: a `VarianceScaling` call computes the fans through the fan
calculator (with its default `channels_last` layout), divides the
configured scale by `max(1, fan_in)`, `max(1, fan_out)` or
`max(1, (fan_in + fan_out)/2)` according to the mode, and then delegates to
a truncated-normal draw with mean 0 and `stddev = sqrt(effective_scale)`
for the `normal` distribution, or a uniform draw on `(-limit, limit)` with
`limit = sqrt(3 * effective_scale)` otherwise. -/
theorem c3_variance_scaling_call (B : Backend) (v : VSState) (shape : List ℕ)
    (fan_in fan_out : ℚ)
    (hf : computeFans B shape "channels_last" = .ok (fan_in, fan_out)) :
    vsCall B v shape =
      (let effective_scale :=
        if v.mode = "fan_in" then v.scale / max 1 fan_in
        else if v.mode = "fan_out" then v.scale / max 1 fan_out
        else v.scale / max 1 ((fan_in + fan_out) / 2)
      if v.distribution = "normal" then
        .ok (.truncatedNormal shape 0 (B.sqrt effective_scale) v.seed)
      else
        .ok (.randomUniform shape (-(B.sqrt (3 * effective_scale)))
          (B.sqrt (3 * effective_scale)) v.seed)) := by
  simp only [vsCall, hf]

theorem c3_variance_scaling_call_witness :
    vsCall CB ⟨1, "fan_in", "normal", none⟩ [3, 4] =
      .ok (.truncatedNormal [3, 4] 0 (1 / 3) none) := by
  have h := c3_variance_scaling_call CB ⟨1, "fan_in", "normal", none⟩ [3, 4] 3 4
    (by norm_num [computeFans])
  norm_num [CB] at h
  exact h

/-- C8: each named preset builds a `VarianceScaling` instance with its fixed
`(scale, mode, distribution)` triple and the given seed, and consequently a
`he_uniform` initializer samples uniformly within
`limit = sqrt(6 / fan_in)` (the fans of any valid shape are at least 1, so
the `max(1, ·)` guard is inert). -/
theorem c8_named_presets (seed : Option ℕ) :
    lecun_uniform seed = .ok ⟨1, "fan_in", "uniform", seed⟩ ∧
    glorot_normal seed = .ok ⟨1, "fan_avg", "normal", seed⟩ ∧
    glorot_uniform seed = .ok ⟨1, "fan_avg", "uniform", seed⟩ ∧
    he_normal seed = .ok ⟨2, "fan_in", "normal", seed⟩ ∧
    he_uniform seed = .ok ⟨2, "fan_in", "uniform", seed⟩ ∧
    (∀ (B : Backend) (shape : List ℕ) (fan_in fan_out : ℚ),
      computeFans B shape "channels_last" = .ok (fan_in, fan_out) →
      1 ≤ fan_in →
      vsCall B ⟨2, "fan_in", "uniform", seed⟩ shape =
        .ok (.randomUniform shape (-(B.sqrt (6 / fan_in)))
          (B.sqrt (6 / fan_in)) seed)) := by
  refine ⟨?_, ?_, ?_, ?_, ?_, ?_⟩
  · norm_num [lecun_uniform, mkVS,
      show pyLower "fan_in" = "fan_in" from by decide,
      show pyLower "uniform" = "uniform" from by decide]
  · norm_num [glorot_normal, mkVS,
      show pyLower "fan_avg" = "fan_avg" from by decide,
      show pyLower "normal" = "normal" from by decide]
  · norm_num [glorot_uniform, mkVS,
      show pyLower "fan_avg" = "fan_avg" from by decide,
      show pyLower "uniform" = "uniform" from by decide]
  · norm_num [he_normal, mkVS,
      show pyLower "fan_in" = "fan_in" from by decide,
      show pyLower "normal" = "normal" from by decide]
  · norm_num [he_uniform, mkVS,
      show pyLower "fan_in" = "fan_in" from by decide,
      show pyLower "uniform" = "uniform" from by decide]
  · intro B shape fan_in fan_out hf hge
    simp only [vsCall, hf]
    norm_num [max_eq_right hge,
      show (3 : ℚ) * (2 / fan_in) = 6 / fan_in from by ring]
    intro h
    exact absurd h (by decide)

theorem c8_named_presets_witness :
    vsCall CB ⟨2, "fan_in", "uniform", some 5⟩ [3, 4] =
      .ok (.randomUniform [3, 4] (-2) 2 (some 5)) := by
  have h := (c8_named_presets (some 5)).2.2.2.2.2 CB [3, 4] 3 4
    (by norm_num [computeFans]) (by norm_num)
  norm_num [CB] at h
  exact h

/-- C7: an `Identity(gain)` call returns a tensor exactly when the shape is
`[n, n]` for some `n`, in which case the result is the `n × n` matrix with
`gain` on the diagonal and zero elsewhere; any other shape raises
`ValueError` (the spec's `InvalidArgument`) and produces no tensor. -/
theorem c7_identity_square (gain : ℚ) (shape : List ℕ) :
    ((∃ t, identityCall gain shape = .ok t) ↔ ∃ n, shape = [n, n]) ∧
    (∀ n, shape = [n, n] →
      ∃ t, identityCall gain shape = .ok t ∧ t.shape = [n, n] ∧
        ∀ i j, i < n → j < n →
          t.data.getD (i * n + j) 0 = if i = j then gain else 0) := by
  constructor
  · constructor
    · rintro ⟨t, ht⟩
      unfold identityCall at ht
      by_cases h : shape.length ≠ 2 ∨ shape.getD 0 0 ≠ shape.getD 1 0
      · rw [if_pos h] at ht
        exact absurd ht (by simp)
      · push_neg at h
        obtain ⟨a, b, rfl⟩ := List.length_eq_two.1 h.1
        exact ⟨a, by simpa using h.2.symm⟩
    · rintro ⟨n, rfl⟩
      refine ⟨⟨[n, n], (List.range (n * n)).map fun k =>
        if k / n = k % n then gain else 0⟩, ?_⟩
      unfold identityCall
      rw [if_neg (by simp)]
      rfl
  · rintro n rfl
    refine ⟨⟨[n, n], (List.range (n * n)).map fun k =>
      if k / n = k % n then gain else 0⟩, ?_, rfl, ?_⟩
    · unfold identityCall
      rw [if_neg (by simp)]
      rfl
    · intro i j hi hj
      have hn : 0 < n := lt_of_le_of_lt (Nat.zero_le i) hi
      have hk : i * n + j < n * n := by
        calc i * n + j < i * n + n := by omega
        _ = (i + 1) * n := by ring
        _ ≤ n * n := Nat.mul_le_mul_right n (by omega)
      have hdiv : (i * n + j) / n = i := by
        rw [Nat.add_comm, Nat.add_mul_div_right _ _ hn, Nat.div_eq_of_lt hj,
          Nat.zero_add]
      have hmod : (i * n + j) % n = j := by
        rw [Nat.add_comm, Nat.add_mul_mod_self_right, Nat.mod_eq_of_lt hj]
      simp only [List.getD_eq_getElem?_getD, List.getElem?_map,
        List.getElem?_range, hk, if_pos hk]
      simp [hdiv, hmod]

theorem c7_identity_square_witness :
    (¬ ∃ t, identityCall 3 [2, 3] = .ok t) ∧
    (∃ t, identityCall 3 [2, 2] = .ok t ∧ t.shape = [2, 2] ∧
      t.data.getD 0 0 = 3 ∧ t.data.getD 1 0 = 0) := by
  constructor
  · intro h
    obtain ⟨n, hn⟩ := (c7_identity_square 3 [2, 3]).1.1 h
    simp at hn
    omega
  · obtain ⟨t, h1, h2, h3⟩ := (c7_identity_square 3 [2, 2]).2 2 rfl
    refine ⟨t, h1, h2, ?_, ?_⟩
    · simpa using h3 0 0 (by norm_num) (by norm_num)
    · simpa using h3 0 1 (by norm_num) (by norm_num)

theorem mkVS_ok_elim {scale : ℚ} {mode distribution : String} {seed : Option ℕ}
    {v : VSState} (h : mkVS scale mode distribution seed = .ok v) :
    ¬ scale ≤ 0 ∧
    (pyLower mode = "fan_in" ∨ pyLower mode = "fan_out" ∨
      pyLower mode = "fan_avg") ∧
    (pyLower distribution = "normal" ∨ pyLower distribution = "uniform") ∧
    v = ⟨scale, pyLower mode, pyLower distribution, seed⟩ := by
  unfold mkVS at h
  by_cases h1 : scale ≤ 0
  · rw [if_pos h1] at h
    exact absurd h (by simp)
  · rw [if_neg h1] at h
    by_cases h2 : pyLower mode = "fan_in" ∨ pyLower mode = "fan_out" ∨
        pyLower mode = "fan_avg"
    · rw [if_neg (not_not_intro h2)] at h
      by_cases h3 : pyLower distribution = "normal" ∨
          pyLower distribution = "uniform"
      · rw [if_neg (not_not_intro h3)] at h
        refine ⟨h1, h2, h3, ?_⟩
        injection h with h'
        exact h'.symm
      · rw [if_pos h3] at h
        exact absurd h (by simp)
    · rw [if_pos h2] at h
      exact absurd h (by simp)

theorem mkVS_ok_idem {scale : ℚ} {mode distribution : String}
    {seed : Option ℕ} {v : VSState}
    (h : mkVS scale mode distribution seed = .ok v) :
    mkVS v.scale v.mode v.distribution v.seed = .ok v := by
  obtain ⟨h1, h2, h3, rfl⟩ := mkVS_ok_elim h
  unfold mkVS
  rw [if_neg h1, pyLower_mode_idem h2, if_neg (not_not_intro h2),
    pyLower_dist_idem h3, if_neg (not_not_intro h3)]

/-- C9: for every initializer variant and every constructor-parameter
assignment the constructor accepts, reading the configuration record,
rebuilding an instance from it via the constructor and reading the
configuration again reproduces the same record. (The only non-trivial case
is `VarianceScaling`, whose constructor lower-cases `mode` and
`distribution`; lower-casing is inert on the already-validated stored
values, so the rebuilt instance is identical.) -/
theorem c9_config_roundtrip (p : InitConfig) (i : InitInstance)
    (h : mkInit p = .ok i) :
    ∃ i2, mkInit (getConfig i) = .ok i2 ∧ getConfig i2 = getConfig i := by
  cases p with
  | varianceScaling scale mode distribution seed =>
    simp only [mkInit] at h
    cases hmk : mkVS scale mode distribution seed with
    | error e => rw [hmk] at h; exact absurd h (by simp [Except.map])
    | ok v =>
      rw [hmk] at h
      simp only [Except.map] at h
      injection h with h'
      subst h'
      refine ⟨.varianceScaling v, ?_, rfl⟩
      simp only [mkInit, getConfig, mkVS_ok_idem hmk, Except.map]
  | zeros => exact ⟨i, by injection h with h'; subst h'; exact rfl, rfl⟩
  | ones => exact ⟨i, by injection h with h'; subst h'; exact rfl, rfl⟩
  | constant value => exact ⟨i, by injection h with h'; subst h'; exact rfl, rfl⟩
  | randomNormal mean stddev seed =>
    exact ⟨i, by injection h with h'; subst h'; exact rfl, rfl⟩
  | randomUniform minval maxval seed =>
    exact ⟨i, by injection h with h'; subst h'; exact rfl, rfl⟩
  | truncatedNormal mean stddev seed =>
    exact ⟨i, by injection h with h'; subst h'; exact rfl, rfl⟩
  | orthogonal gain seed =>
    exact ⟨i, by injection h with h'; subst h'; exact rfl, rfl⟩
  | convolutionAware eps_std seed =>
    exact ⟨i, by injection h with h'; subst h'; exact rfl, rfl⟩
  | identity gain => exact ⟨i, by injection h with h'; subst h'; exact rfl, rfl⟩

theorem c9_config_roundtrip_witness :
    ∃ i2, mkInit (getConfig (.varianceScaling ⟨2, "fan_in", "uniform", some 3⟩))
        = .ok i2 ∧
      getConfig i2 = getConfig (.varianceScaling ⟨2, "fan_in", "uniform", some 3⟩) := by
  refine c9_config_roundtrip
    (.varianceScaling 2 "Fan_In" "UNIFORM" (some 3))
    (.varianceScaling ⟨2, "fan_in", "uniform", some 3⟩) ?_
  norm_num [mkInit, mkVS, Except.map,
    show pyLower "Fan_In" = "fan_in" from by decide,
    show pyLower "UNIFORM" = "uniform" from by decide]

/-- C10: an `Orthogonal` call returns a tensor only for shapes of length at
least 2; on every length-1 shape it fails with the `IndexError` raised by
the corner extraction `q[:shape[0], :shape[1]]` (the flattening into
`(num_rows, num_cols)` and the draw itself go through for rank 1, since
`shape[:-1]` is empty and `shape[-1]` exists). -/
theorem c10_orthogonal_needs_rank_two (B : Backend) (gain : ℚ)
    (seed : Option ℕ) (shape : List ℕ) (σ : NpState) :
    (∀ r, orthogonalCall B gain seed shape σ = .ok r → 2 ≤ shape.length) ∧
    (shape.length = 1 →
      orthogonalCall B gain seed shape σ = .error .indexError) := by
  rcases shape with _ | ⟨a, _ | ⟨b, t⟩⟩
  · refine ⟨?_, ?_⟩
    · intro r hr
      exact absurd hr (by simp [orthogonalCall])
    · intro h
      simp at h
  · refine ⟨?_, ?_⟩
    · intro r hr
      exact absurd hr (by simp [orthogonalCall])
    · intro _
      rfl
  · exact ⟨fun r _ => by simp, fun h => by simp at h⟩

theorem c10_orthogonal_needs_rank_two_witness :
    orthogonalCall CB 1 none [5] sigma0 = .error .indexError :=
  (c10_orthogonal_needs_rank_two CB 1 none [5] sigma0).2 rfl

set_option linter.unusedVariables false in
/-- C5: on every valid shape whose rank is neither 3 nor 4,
`ConvolutionAware.__call__` returns exactly what the `Orthogonal()` instance
built in its constructor returns, i.e. an Orthogonal call with default
`gain = 1` and no seed, from the same global random state (the fan and
variance computations preceding the dispatch are pure). Whatever invariant
the backend's SVD guarantees for Orthogonal output therefore transfers
verbatim, orthogonality included. -/
theorem c5_convaware_fallback (B : Backend) (eps_std : ℚ) (seed : Option ℕ)
    (shape : List ℕ) (σ : NpState) (hpos : ∀ d ∈ shape, 0 < d)
    (h3 : shape.length ≠ 3) (h4 : shape.length ≠ 4) :
    convAwareCall B eps_std seed shape σ = orthogonalCall B 1 none shape σ := by
  obtain ⟨p, hp⟩ := computeFans_channels_last_ok B shape
  simp only [convAwareCall, image_data_format, hp, if_neg h3, if_neg h4]

theorem c5_convaware_fallback_witness :
    convAwareCall CB (1 / 20) (some 7) [2, 2] sigma0 =
      orthogonalCall CB 1 none [2, 2] sigma0 :=
  c5_convaware_fallback CB (1 / 20) (some 7) [2, 2] sigma0
    (by norm_num) (by norm_num) (by norm_num)

/-- C6: false on the code. A seeded `Orthogonal` call executes
`np.random.seed(self.seed)` on the process-wide numpy generator, so the
state observed afterwards by unrelated draws depends on that instance's
seed: with the concrete backend, running the call on `(1,1)` from the same
initial state with seed 0 versus seed 1 leaves global states whose next
unrelated draw differs. -/
theorem c6_orthogonal_reseeds_counterexample :
    ∃ r1 r2,
      orthogonalCall CB 1 (some 0) [1, 1] sigma0 = .ok r1 ∧
      orthogonalCall CB 1 (some 1) [1, 1] sigma0 = .ok r2 ∧
      r1.2.stream r1.2.pos ≠ r2.2.stream r2.2.pos := by
  refine ⟨_, _, rfl, rfl, ?_⟩
  norm_num [CB, npSeed, drawNormal, orthogonalCall, pyProd]

/-- C6 (amended): every initializer call's only effect on shared state is on
the process-wide numpy generator, and a successful `Orthogonal` call with a
seed set does mutate it beyond consuming draws: it reseeds the generator, so
the post-call global state is the seeded stream advanced by the number of
drawn entries — determined by the seed and the shape, and observed by
subsequent unrelated draws. -/
theorem c6_amended_orthogonal_reseeds (B : Backend) (gain : ℚ) (s : ℕ)
    (shape : List ℕ) (σ : NpState) (r : Tensor × NpState)
    (h : orthogonalCall B gain (some s) shape σ = .ok r) :
    r.2.stream = B.seedStream s ∧
    r.2.pos = pyProd shape.dropLast * shape.getLast?.getD 0 := by
  rcases shape with _ | ⟨a, _ | ⟨b, t⟩⟩
  · exact absurd h (by simp [orthogonalCall])
  · exact absurd h (by simp [orthogonalCall])
  · cases hL : (a :: b :: t).getLast? with
    | none => simp at hL
    | some c =>
      simp only [orthogonalCall, hL, npSeed, drawNormal] at h
      injection h with h'
      subst h'
      exact ⟨rfl, by simp [hL]⟩

theorem c6_amended_orthogonal_reseeds_witness :
    ∃ r, orthogonalCall CB 1 (some 4) [1, 1] sigma0 = .ok r ∧
      r.2.stream = CB.seedStream 4 ∧ r.2.pos = 1 := by
  obtain ⟨r, hr⟩ : ∃ r, orthogonalCall CB 1 (some 4) [1, 1] sigma0 = .ok r :=
    ⟨_, rfl⟩
  obtain ⟨h1, h2⟩ := c6_amended_orthogonal_reseeds CB 1 4 [1, 1] sigma0 r hr
  exact ⟨r, hr, h1, by simpa [pyProd] using h2⟩

/-- C2: false on the code for `ConvolutionAware`. Its call never consults
the stored seed (the embedding of `__call__` is literally independent of the
seed argument), so with the seed set two successive calls on the same shape
read different segments of the advancing global numpy stream and return
different tensors — here concretely on shape `(2,2)`, where the call falls
back to the unseeded `Orthogonal()` instance. -/
theorem c2_convaware_seed_unused :
    (∀ (B : Backend) (eps_std : ℚ) (s1 s2 : Option ℕ) (shape : List ℕ)
      (σ : NpState),
      convAwareCall B eps_std s1 shape σ = convAwareCall B eps_std s2 shape σ) ∧
    ∃ t1 σ1 t2 σ2,
      convAwareCall CB 1 (some 0) [2, 2] sigma0 = .ok (t1, σ1) ∧
      convAwareCall CB 1 (some 0) [2, 2] σ1 = .ok (t2, σ2) ∧
      t1 ≠ t2 := by
  refine ⟨fun B eps_std s1 s2 shape σ => rfl, ?_⟩
  refine ⟨_, _, _, _, rfl, rfl, ?_⟩
  intro hcon
  simp [convAwareCall, orthogonalCall, drawNormal, CB, sigma0, pyProd,
    image_data_format, computeFans, List.range_succ] at hcon
